import Mathlib

/-!
Shallow embedding of `src/app.js`, a browser page script with three slices:
a quote widget, a task checklist, and a notes editor.

Modelling conventions:
* A DOM element that may be absent (`document.getElementById` / `querySelector`
  returning `null`) is an `Option` holding the element's relevant mutable state
  (`textContent`, `value`, `disabled`, or the rendered children).
* Remote calls are passed in as values: an `Except Unit α` is the settled axios
  promise (`.error` = rejection), and response fields that may be missing or
  nullish are `Option`s, so `a ?? b` becomes `Option.getD`.
* Handlers return, besides the new DOM state, the list of HTTP requests they
  issued and the number of `console.error` calls, so that "no POST is issued"
  and "logs the error" are statable.
* A JS exception escaping a handler (promise rejection) is an explicit `Bool`
  in the result where the code can throw; functions whose whole body is inside
  `try/catch` cannot reject and are modelled as total functions.
-/

namespace App

/-- The quote response body (`response.data`): each field is `none` when the
property is missing, `null`, or `undefined` (the cases `??` falls through). -/
structure QuoteData where
  quote : Option String
  text : Option String
  author : Option String
  name : Option String
  deriving Repr, DecidableEq

/-- The two quote target elements; `none` means the element is absent from the
page, `some s` means present with `textContent = s`. -/
structure QuoteDom where
  quoteText : Option String
  quoteAuthor : Option String
  deriving Repr, DecidableEq

/-- Result of `axios.get(API_BASE/quotes)` as seen by `loadQuote`:
`.error` = network/HTTP rejection; `.ok none` = nullish `response.data`
(so `data.quote` throws a TypeError); `.ok (some d)` = object body. -/
def QuoteFetch : Type := Except Unit (Option QuoteData)

/-- The `try` block of `loadQuote` (src/app.js lines 21-32). Returns the DOM
state after the block together with `true` when the block threw (network
rejection, nullish data, or writing `textContent` on a missing element). -/
def quoteTryBody (fetch : QuoteFetch) (dom : QuoteDom) : QuoteDom × Bool :=
  match fetch with
  | Except.error _ => (dom, true)
  | Except.ok none => (dom, true)
  | Except.ok (some data) =>
    let quoteText := data.quote.getD (data.text.getD "")
    let quoteAuthor := data.author.getD (data.name.getD "")
    match dom.quoteText with
    | none => (dom, true)
    | some _ =>
      let dom1 : QuoteDom := { dom with quoteText := some ("\"" ++ quoteText ++ "\"") }
      match dom1.quoteAuthor with
      | none => (dom1, true)
      | some _ => ({ dom1 with quoteAuthor := some quoteAuthor }, false)

/-- The `catch` block of `loadQuote` (src/app.js lines 33-37). Returns the DOM
after the block, `true` when the block itself threw (missing target element,
in which case the rejection escapes `loadQuote`), and the number of
`console.error` calls. -/
def quoteCatch (dom : QuoteDom) : QuoteDom × Bool × Nat :=
  match dom.quoteText with
  | none => (dom, true, 0)
  | some _ =>
    let dom1 : QuoteDom := { dom with quoteText := some "Oops... could not load quote." }
    match dom1.quoteAuthor with
    | none => (dom1, true, 0)
    | some _ => ({ dom1 with quoteAuthor := some "" }, false, 1)

/-- `loadQuote` (src/app.js lines 17-38): element lookups happen before the
`try`; the `try` body runs, and on a throw the `catch` block runs (which can
itself throw when a target element is missing). Result: final DOM, whether the
returned promise rejects, number of `console.error` calls. -/
def loadQuote (fetch : QuoteFetch) (dom : QuoteDom) : QuoteDom × Bool × Nat :=
  match quoteTryBody fetch dom with
  | (dom1, true) => quoteCatch dom1
  | (dom1, false) => (dom1, false, 0)

/-- A task record as served by `GET /tasks` (`{ id, task, finished }`). -/
structure Task where
  id : Int
  task : String
  finished : Int
  deriving Repr, DecidableEq

/-- One rendered `li.task-item` row: the checkbox's `checked` state, the label
text, and the task id captured by the checkbox's change-handler closure. -/
structure TaskItem where
  checked : Bool
  label : String
  taskId : Int
  deriving Repr, DecidableEq

/-- The tasks-slice DOM: the `.task-list` container (its children), the
`new-task` input (its `value`), and the `add-task-btn` (its `disabled` flag);
`none` = the element is absent from the page. -/
structure TasksDom where
  taskList : Option (List TaskItem)
  newTaskInput : Option String
  addBtnDisabled : Option Bool
  deriving Repr, DecidableEq

/-- The HTTP requests the handlers can issue, in issue order. -/
inductive Request where
  | getTasks : Request
  | patchTask (id : Int) (finished : Int) : Request
  | postTask (task : String) : Request
  | getNotes : Request
  | putNotes (notes : String) : Request
  deriving Repr, DecidableEq

/-- The ECMAScript WhiteSpace/LineTerminator predicate used by
`String.prototype.trim` (restricted to the code points relevant here): space,
tab, LF, VT, FF, CR, NBSP, BOM. -/
def jsIsWhitespace (c : Char) : Bool :=
  c == ' ' || c == '\t' || c == '\n' || c == '\r' ||
  c == Char.ofNat 11 || c == Char.ofNat 12 || c == Char.ofNat 160 ||
  c == Char.ofNat 65279

/-- `raw.trim()` in `handleAddTask`: ECMAScript `String.prototype.trim`,
removing leading and trailing whitespace, modelled structurally over the
character list. -/
def jsTrim (s : String) : String :=
  String.mk (((s.data.dropWhile jsIsWhitespace).reverse.dropWhile jsIsWhitespace).reverse)

/-- `renderTaskList` (src/app.js lines 85-119): returns unchanged when the
`.task-list` container is missing; otherwise destructively replaces the
container's children with one row per task, checkbox checked iff
`t.finished === 1`, label `t.task`, change handler capturing `t`. -/
def renderTaskList (tasks : List Task) (dom : TasksDom) : TasksDom :=
  match dom.taskList with
  | none => dom
  | some _ =>
    { dom with
      taskList := some (tasks.map fun t =>
        { checked := t.finished == (1 : Int), label := t.task, taskId := t.id }) }

/-- `loadTasks` (src/app.js lines 121-128): issues `GET /tasks`; on success
renders, on rejection logs and leaves the DOM untouched. The whole body is
inside `try/catch`, so it never rejects. Result: new DOM, requests issued,
`console.error` count. -/
def loadTasks (fetch : Except Unit (List Task)) (dom : TasksDom) :
    TasksDom × List Request × Nat :=
  match fetch with
  | Except.ok tasks => (renderTaskList tasks dom, [Request.getTasks], 0)
  | Except.error _ => (dom, [Request.getTasks], 1)

/-- The checkbox change handler wired in `renderTaskList` (src/app.js lines
102-113): converts the checkbox's new `checked` state to 0/1, issues the
PATCH for the captured task's id (logging, not rethrowing, on rejection), and
then unconditionally runs `loadTasks`. `patch` is the settled PATCH promise,
`fetch` the settled `GET /tasks` promise of the reload. -/
def checkboxChange (patch : Except Unit Unit) (fetch : Except Unit (List Task))
    (checked : Bool) (t : Task) (dom : TasksDom) : TasksDom × List Request × Nat :=
  let newFinished : Int := if checked then 1 else 0
  let patchErrs : Nat := match patch with | Except.ok _ => 0 | Except.error _ => 1
  match loadTasks fetch dom with
  | (dom1, reqs, errs) =>
    (dom1, Request.patchTask t.id newFinished :: reqs, patchErrs + errs)

/-- `if (addBtn) addBtn.disabled = b` (src/app.js lines 142 and 150). -/
def setAddBtnDisabled (dom : TasksDom) (b : Bool) : TasksDom :=
  match dom.addBtnDisabled with
  | none => dom
  | some _ => { dom with addBtnDisabled := some b }

/-- `handleAddTask` (src/app.js lines 130-154): returns immediately when the
`new-task` input is missing or its value trims to empty (no request, no DOM
change); otherwise disables the add button, issues the POST (`post` is its
settled promise), clears the input only on success, logs on rejection,
re-enables the button in `finally`, then always runs `loadTasks`. -/
def handleAddTask (post : Except Unit Unit) (fetch : Except Unit (List Task))
    (dom : TasksDom) : TasksDom × List Request × Nat :=
  match dom.newTaskInput with
  | none => (dom, [], 0)
  | some raw =>
    let taskText := jsTrim raw
    if taskText.length = 0 then (dom, [], 0)
    else
      let dom1 := setAddBtnDisabled dom true
      match post with
      | Except.ok _ =>
        let dom2 : TasksDom := { dom1 with newTaskInput := some "" }
        let dom3 := setAddBtnDisabled dom2 false
        match loadTasks fetch dom3 with
        | (dom4, reqs, errs) => (dom4, Request.postTask taskText :: reqs, errs)
      | Except.error _ =>
        let dom3 := setAddBtnDisabled dom1 false
        match loadTasks fetch dom3 with
        | (dom4, reqs, errs) => (dom4, Request.postTask taskText :: reqs, 1 + errs)

/-- The notes-slice DOM: the `notes-text` textarea (its `value`) and the
`save-notes-btn` (its `disabled` flag); `none` = element absent. -/
structure NotesDom where
  notesText : Option String
  saveBtnDisabled : Option Bool
  deriving Repr, DecidableEq

/-- `fetchNotes` (src/app.js lines 181-185): `response.data?.notes ?? ""`.
`resp` is the settled GET promise, with `.ok none` when `data` is nullish or
has no `notes`. -/
def fetchNotes (resp : Except Unit (Option String)) : Except Unit String :=
  resp.map fun d => d.getD ""

/-- `putNotes` (src/app.js lines 187-192): `response.data?.notes ?? notesText`
— the server echo, or the sent value when the echo is missing. -/
def putNotes (resp : Except Unit (Option String)) (notesText : String) :
    Except Unit String :=
  resp.map fun d => d.getD notesText

/-- `setSaveNotesEnabled` (src/app.js lines 194-198): no-op when the save
button is missing, else `disabled = !enabled`. -/
def setSaveNotesEnabled (dom : NotesDom) (enabled : Bool) : NotesDom :=
  match dom.saveBtnDisabled with
  | none => dom
  | some _ => { dom with saveBtnDisabled := some !enabled }

/-- `loadNotes` (src/app.js lines 200-212): returns when the textarea is
missing (before any request); otherwise fetches, and on success sets
`lastSavedNotes` and the textarea to the fetched value and disables the save
button; on rejection logs and changes nothing. Result: new `lastSavedNotes`,
new DOM, requests, `console.error` count. -/
def loadNotes (resp : Except Unit (Option String)) (lastSavedNotes : String)
    (dom : NotesDom) : String × NotesDom × List Request × Nat :=
  match dom.notesText with
  | none => (lastSavedNotes, dom, [], 0)
  | some _ =>
    match fetchNotes resp with
    | Except.error _ => (lastSavedNotes, dom, [Request.getNotes], 1)
    | Except.ok notes =>
      (notes, setSaveNotesEnabled { dom with notesText := some notes } false,
       [Request.getNotes], 0)

/-- The textarea `input` handler wired in `wireNotesEvents` (src/app.js lines
218-222): fires with the textarea present holding its new value `v`, and sets
the save button's enabled state to `v !== lastSavedNotes`. -/
def notesInputHandler (lastSavedNotes : String) (dom : NotesDom) : NotesDom :=
  match dom.notesText with
  | none => dom
  | some v => setSaveNotesEnabled dom (v != lastSavedNotes)

/-- The save button `click` handler wired in `wireNotesEvents` (src/app.js
lines 225-237): reads `textarea?.value ?? ""`, calls `putNotes`; on success
sets `lastSavedNotes` to the returned value, writes it back to the textarea
(when present) and disables the save button; on rejection logs and changes
nothing. Result: new `lastSavedNotes`, new DOM, requests, error count. -/
def saveNotesHandler (resp : Except Unit (Option String)) (lastSavedNotes : String)
    (dom : NotesDom) : String × NotesDom × List Request × Nat :=
  let currentText := dom.notesText.getD ""
  match putNotes resp currentText with
  | Except.error _ => (lastSavedNotes, dom, [Request.putNotes currentText], 1)
  | Except.ok saved =>
    let dom1 : NotesDom := { dom with notesText := dom.notesText.map fun _ => saved }
    (saved, setSaveNotesEnabled dom1 false, [Request.putNotes currentText], 0)

/-- A string has length 0 exactly when it is the empty string (helper). -/
theorem string_length_eq_zero_iff (s : String) : s.length = 0 ↔ s = "" := by
  obtain ⟨l⟩ := s
  simp [String.length, String.ext_iff, List.length_eq_zero]

/-- C1: a checkbox toggle on a rendered task converts the new checked state to
0/1, issues the PATCH for that task's id, and — whatever the PATCH's outcome
`patch` — performs a full `loadTasks` reload, so that when the reload fetch
returns `tasks`, the rendered checkbox states are exactly the server's
`finished === 1` values for `tasks`, not necessarily the just-clicked value. -/
theorem toggle_patch_then_reload_reflects_server (patch : Except Unit Unit)
    (checked : Bool) (t : Task) (tasks : List Task) (items : List TaskItem)
    (inp : Option String) (btn : Option Bool) :
    (checkboxChange patch (Except.ok tasks) checked t
        { taskList := some items, newTaskInput := inp, addBtnDisabled := btn }).2.1 =
      [Request.patchTask t.id (if checked then 1 else 0), Request.getTasks] ∧
    (checkboxChange patch (Except.ok tasks) checked t
        { taskList := some items, newTaskInput := inp, addBtnDisabled := btn }).1.taskList =
      some (tasks.map fun u =>
        { checked := u.finished == (1 : Int), label := u.task, taskId := u.id }) :=
  ⟨rfl, rfl⟩

/-- C2 counterexample: when the `quote-text` element is missing, a failing
fetch does not end with the fallback written and an error logged — the `catch`
block itself throws, so `loadQuote`'s promise rejects (`true` in the second
component) and nothing is logged, refuting the claim that `loadQuote` handles
missing quote DOM target elements and never throws. -/
theorem loadQuote_missing_target_rejects :
    loadQuote (Except.error ()) { quoteText := none, quoteAuthor := some "" } =
      ({ quoteText := none, quoteAuthor := some "" }, true, 0) :=
  rfl

/-- C2 amended: on a failing fetch (network rejection or nullish response
data), provided both quote target elements are present, `loadQuote` writes the
fixed fallback message to the quote-text element, clears the quote-author
element, logs the error once, and does not reject. -/
theorem loadQuote_failure_fallback_when_targets_present (fetch : QuoteFetch)
    (a b : String) (hfail : fetch = Except.error () ∨ fetch = Except.ok none) :
    loadQuote fetch { quoteText := some a, quoteAuthor := some b } =
      ({ quoteText := some "Oops... could not load quote.", quoteAuthor := some "" },
       false, 1) := by
  rcases hfail with h | h <;> subst h <;> rfl

/-- C2 witness: the amended theorem at a network rejection with both targets
present. -/
theorem loadQuote_failure_fallback_witness :
    loadQuote (Except.error ()) { quoteText := some "x", quoteAuthor := some "y" } =
      ({ quoteText := some "Oops... could not load quote.", quoteAuthor := some "" },
       false, 1) :=
  loadQuote_failure_fallback_when_targets_present (Except.error ()) "x" "y" (Or.inl rfl)

/-- C3: on a notes save with the textarea present holding `cur` and the save
button present: if `putNotes` resolves (echo `e`, or no echo), `lastSavedNotes`
becomes the echoed value (the sent value `cur` when the echo is omitted), the
textarea is set to that same value, the save button becomes disabled and
nothing is logged; if it rejects, `lastSavedNotes`, the textarea and the
button are all unchanged and the error is logged once. -/
theorem saveNotes_success_clean_failure_unchanged (resp : Except Unit (Option String))
    (ls cur : String) (b : Bool) :
    (∀ e : Option String, resp = Except.ok e →
      saveNotesHandler resp ls { notesText := some cur, saveBtnDisabled := some b } =
        (e.getD cur,
         { notesText := some (e.getD cur), saveBtnDisabled := some true },
         [Request.putNotes cur], 0)) ∧
    (resp = Except.error () →
      saveNotesHandler resp ls { notesText := some cur, saveBtnDisabled := some b } =
        (ls, { notesText := some cur, saveBtnDisabled := some b },
         [Request.putNotes cur], 1)) := by
  constructor
  · intro e he
    subst he
    rfl
  · intro he
    subst he
    rfl

/-- C3 witness: the save theorem at the scenario `PUT /notes` echoing the sent
value. -/
theorem saveNotes_success_clean_failure_unchanged_witness :
    saveNotesHandler (Except.ok (some "hello!")) "hello"
        { notesText := some "hello!", saveBtnDisabled := some false } =
      ("hello!", { notesText := some "hello!", saveBtnDisabled := some true },
       [Request.putNotes "hello!"], 0) :=
  (saveNotes_success_clean_failure_unchanged (Except.ok (some "hello!"))
    "hello" "hello!" false).1 (some "hello!") rfl

/-- C4: after a textarea input event with new value `v` (textarea and save
button present), the save button is enabled iff `v` differs from
`lastSavedNotes`: its `disabled` flag equals `v == ls`. -/
theorem notesInput_dirty_iff_value_differs (ls v : String) (b : Bool) :
    ((notesInputHandler ls { notesText := some v, saveBtnDisabled := some b }).saveBtnDisabled =
        some false ↔ v ≠ ls) ∧
    (notesInputHandler ls { notesText := some v, saveBtnDisabled := some b }).saveBtnDisabled =
      some (v == ls) := by
  simp [notesInputHandler, setSaveNotesEnabled, bne]

/-- C5: when the `new-task` input's value trims to the empty string,
`handleAddTask` issues no request at all (in particular no POST and no
reload), logs nothing, and leaves the whole tasks DOM — input value, add
button, task list — unchanged. -/
theorem handleAddTask_empty_input_noop (post : Except Unit Unit)
    (fetch : Except Unit (List Task)) (raw : String) (h : jsTrim raw = "")
    (tl : Option (List TaskItem)) (btn : Option Bool) :
    handleAddTask post fetch
        { taskList := tl, newTaskInput := some raw, addBtnDisabled := btn } =
      ({ taskList := tl, newTaskInput := some raw, addBtnDisabled := btn }, [], 0) := by
  unfold handleAddTask
  simp [h]

/-- C5 witness: the whitespace-only input `"  "`. -/
theorem handleAddTask_empty_input_noop_witness :
    (jsTrim "  " = "") ∧
    handleAddTask (Except.ok ()) (Except.ok [])
        { taskList := some [], newTaskInput := some "  ", addBtnDisabled := some false } =
      ({ taskList := some [], newTaskInput := some "  ", addBtnDisabled := some false },
       [], 0) :=
  ⟨by decide, handleAddTask_empty_input_noop (Except.ok ()) (Except.ok []) "  " (by decide)
    (some []) (some false)⟩

/-- C6: on a non-empty trimmed input whose POST rejects, the input's typed
text is not cleared, the add button ends re-enabled (the `finally` step), the
POST error is logged, and the task list is still reloaded (the `GET /tasks`
request is issued after the POST) whatever the reload's own outcome. -/
theorem handleAddTask_post_failure_cleanup (fetch : Except Unit (List Task))
    (raw : String) (h : jsTrim raw ≠ "") (tl : Option (List TaskItem)) (b : Bool) :
    (handleAddTask (Except.error ()) fetch
        { taskList := tl, newTaskInput := some raw, addBtnDisabled := some b }).1.newTaskInput =
      some raw ∧
    (handleAddTask (Except.error ()) fetch
        { taskList := tl, newTaskInput := some raw, addBtnDisabled := some b }).1.addBtnDisabled =
      some false ∧
    (handleAddTask (Except.error ()) fetch
        { taskList := tl, newTaskInput := some raw, addBtnDisabled := some b }).2.1 =
      [Request.postTask (jsTrim raw), Request.getTasks] ∧
    1 ≤ (handleAddTask (Except.error ()) fetch
        { taskList := tl, newTaskInput := some raw, addBtnDisabled := some b }).2.2 := by
  have hlen : ¬ (jsTrim raw).length = 0 := fun hl =>
    h ((string_length_eq_zero_iff (jsTrim raw)).mp hl)
  cases fetch <;> cases tl <;>
    simp [handleAddTask, setAddBtnDisabled, loadTasks, renderTaskList, hlen]

/-- C6 witness: typed text `" hi "`, POST and reload both rejecting. -/
theorem handleAddTask_post_failure_cleanup_witness :
    (jsTrim " hi " ≠ "") ∧
    ((handleAddTask (Except.error ()) (Except.error ())
        { taskList := some [], newTaskInput := some " hi ", addBtnDisabled := some false }).1.newTaskInput =
      some " hi " ∧
    (handleAddTask (Except.error ()) (Except.error ())
        { taskList := some [], newTaskInput := some " hi ", addBtnDisabled := some false }).1.addBtnDisabled =
      some false ∧
    (handleAddTask (Except.error ()) (Except.error ())
        { taskList := some [], newTaskInput := some " hi ", addBtnDisabled := some false }).2.1 =
      [Request.postTask "hi", Request.getTasks] ∧
    1 ≤ (handleAddTask (Except.error ()) (Except.error ())
        { taskList := some [], newTaskInput := some " hi ", addBtnDisabled := some false }).2.2) :=
  ⟨by decide, handleAddTask_post_failure_cleanup (Except.error ()) " hi " (by decide)
    (some []) false⟩

/-- C7: a failing fetch preserves the previously displayed state: `loadTasks`
leaves the tasks DOM (in particular the task-list container) untouched, and
`loadNotes` (textarea present) leaves both the notes DOM and the
`lastSavedNotes` baseline untouched; both log the error once and, being total
functions here because their bodies are entirely inside `try/catch`, propagate
nothing. -/
theorem load_failure_preserves_state (dom : TasksDom) (ls cur : String)
    (nd : NotesDom) (h : nd.notesText = some cur) :
    loadTasks (Except.error ()) dom = (dom, [Request.getTasks], 1) ∧
    loadNotes (Except.error ()) ls nd = (ls, nd, [Request.getNotes], 1) := by
  obtain ⟨nt, sb⟩ := nd
  have h2 : nt = some cur := h
  subst h2
  exact ⟨rfl, rfl⟩

/-- C7 witness: failing fetches against a concrete rendered state. -/
theorem load_failure_preserves_state_witness :
    loadTasks (Except.error ())
        { taskList := some [], newTaskInput := some "", addBtnDisabled := some false } =
      ({ taskList := some [], newTaskInput := some "", addBtnDisabled := some false },
       [Request.getTasks], 1) ∧
    loadNotes (Except.error ()) "n" { notesText := some "n", saveBtnDisabled := some true } =
      ("n", { notesText := some "n", saveBtnDisabled := some true },
       [Request.getNotes], 1) :=
  load_failure_preserves_state
    { taskList := some [], newTaskInput := some "", addBtnDisabled := some false }
    "n" "n" { notesText := some "n", saveBtnDisabled := some true } rfl

/-- C8: on a successful quote response with both target elements present, the
displayed quote text is the `quote` field, else `text`, else `""`, wrapped in
literal double-quote characters, and the displayed author is `author`, else
`name`, else `""`; when both variants of a pair are missing the display is the
empty string (never the text `undefined` or `null`), and nothing is logged. -/
theorem loadQuote_success_field_fallbacks (d : QuoteData) (a b : String) :
    loadQuote (Except.ok (some d)) { quoteText := some a, quoteAuthor := some b } =
      ({ quoteText := some ("\"" ++ (d.quote.getD (d.text.getD "")) ++ "\""),
         quoteAuthor := some (d.author.getD (d.name.getD "")) }, false, 0) ∧
    (d.quote = none → d.text = none →
      (loadQuote (Except.ok (some d))
          { quoteText := some a, quoteAuthor := some b }).1.quoteText = some "\"\"") ∧
    (d.author = none → d.name = none →
      (loadQuote (Except.ok (some d))
          { quoteText := some a, quoteAuthor := some b }).1.quoteAuthor = some "") := by
  refine ⟨rfl, ?_, ?_⟩
  · intro h1 h2
    show some ("\"" ++ (d.quote.getD (d.text.getD "")) ++ "\"") = some "\"\""
    rw [h1, h2]
    rfl
  · intro h1 h2
    show some (d.author.getD (d.name.getD "")) = some ""
    rw [h1, h2]
    rfl

/-- C8 witness: a response with every field-name variant missing displays the
empty quote and the empty author. -/
theorem loadQuote_success_field_fallbacks_witness :
    (loadQuote (Except.ok (some { quote := none, text := none, author := none, name := none }))
        { quoteText := some "a", quoteAuthor := some "b" }).1.quoteText = some "\"\"" ∧
    (loadQuote (Except.ok (some { quote := none, text := none, author := none, name := none }))
        { quoteText := some "a", quoteAuthor := some "b" }).1.quoteAuthor = some "" :=
  ⟨(loadQuote_success_field_fallbacks
      { quote := none, text := none, author := none, name := none } "a" "b").2.1 rfl rfl,
   (loadQuote_success_field_fallbacks
      { quote := none, text := none, author := none, name := none } "a" "b").2.2 rfl rfl⟩

/-- C9: the field-variant fallback is nullish-coalescing with `quote`
preferred over `text` and `author` over `name`: a present first variant wins
even when it is the empty string (only a missing/nullish first variant falls
through to the second). -/
theorem loadQuote_field_precedence_nullish (d : QuoteData) (a b q n : String) :
    (d.quote = some q →
      (loadQuote (Except.ok (some d))
          { quoteText := some a, quoteAuthor := some b }).1.quoteText =
        some ("\"" ++ q ++ "\"")) ∧
    (d.quote = none → d.text = some q →
      (loadQuote (Except.ok (some d))
          { quoteText := some a, quoteAuthor := some b }).1.quoteText =
        some ("\"" ++ q ++ "\"")) ∧
    (d.author = some n →
      (loadQuote (Except.ok (some d))
          { quoteText := some a, quoteAuthor := some b }).1.quoteAuthor = some n) ∧
    (d.author = none → d.name = some n →
      (loadQuote (Except.ok (some d))
          { quoteText := some a, quoteAuthor := some b }).1.quoteAuthor = some n) := by
  refine ⟨?_, ?_, ?_, ?_⟩
  · intro h1
    show some ("\"" ++ (d.quote.getD (d.text.getD "")) ++ "\"") = some ("\"" ++ q ++ "\"")
    rw [h1]
    rfl
  · intro h1 h2
    show some ("\"" ++ (d.quote.getD (d.text.getD "")) ++ "\"") = some ("\"" ++ q ++ "\"")
    rw [h1, h2]
    rfl
  · intro h1
    show some (d.author.getD (d.name.getD "")) = some n
    rw [h1]
    rfl
  · intro h1 h2
    show some (d.author.getD (d.name.getD "")) = some n
    rw [h1, h2]
    rfl

/-- C9 witness: with `quote` present but empty and `text` present non-empty,
the empty `quote` is kept (the display is a pair of literal double quotes);
with both author variants present, `author` wins. -/
theorem loadQuote_field_precedence_nullish_witness :
    (loadQuote (Except.ok (some { quote := some "", text := some "x", author := some "A", name := some "B" })) { quoteText := some "a", quoteAuthor := some "b" }).1.quoteText = some "\"\"" ∧
    (loadQuote (Except.ok (some { quote := some "", text := some "x", author := some "A", name := some "B" })) { quoteText := some "a", quoteAuthor := some "b" }).1.quoteAuthor = some "A" :=
  ⟨(loadQuote_field_precedence_nullish { quote := some "", text := some "x", author := some "A", name := some "B" } "a" "b" "" "A").1 rfl,
   (loadQuote_field_precedence_nullish { quote := some "", text := some "x", author := some "A", name := some "B" } "a" "b" "" "A").2.2.1 rfl⟩

/-- C10: when the `.task-list` container is missing, `renderTaskList` returns
without throwing and mutates nothing: the whole tasks DOM is returned
unchanged, for every input list. -/
theorem renderTaskList_noop_without_container (tasks : List Task)
    (inp : Option String) (btn : Option Bool) :
    renderTaskList tasks { taskList := none, newTaskInput := inp, addBtnDisabled := btn } =
      { taskList := none, newTaskInput := inp, addBtnDisabled := btn } :=
  rfl

end App
